import Mathlib

/-!
Verification of the session/chat backend: a shallow embedding of the
session, group-chat and global-language persistence logic, with theorems
about lookup, deletion, title generation, append-only histories and
identifier freshness.

Conventions of the embedding:
* the document database is a list of documents; a Mongo filter is a
  Boolean predicate, find_one takes the first match, update_one and
  delete_one touch only the first match;
* timestamps are natural numbers;
* outcomes of external API calls (chat completion, title model,
  transcription) are passed in as Except String String values: .ok is the
  returned text, .error is the raised exception rendered as str(e);
* an HTTP error raised by a handler is an HTTPException value carrying
  the status code and the detail string.
-/

namespace OmniAI

/-- The double-quote character, used by the title cleanup step. -/
def dquote : Char := Char.ofNat 34

/-- The single-quote character, used by the title cleanup step. -/
def squote : Char := Char.ofNat 39

/-- Python s[:n]: the first n characters of s. -/
def py_take (n : Nat) (s : String) : String := ⟨s.data.take n⟩

/-- Python len(s): the number of characters of s. -/
def py_len (s : String) : Nat := s.data.length

/-- Python s.strip(): drop leading and trailing whitespace. -/
def py_strip (s : String) : String :=
  ⟨((s.data.dropWhile Char.isWhitespace).reverse.dropWhile Char.isWhitespace).reverse⟩

/-- Python s.strip(c): drop leading and trailing copies of the character c. -/
def py_strip_char (c : Char) (s : String) : String :=
  ⟨((s.data.dropWhile (· == c)).reverse.dropWhile (· == c)).reverse⟩

/-- An HTTP error raised by a handler: status code plus detail text. -/
structure HTTPException where
  status_code : Nat
  detail : String
deriving Repr, DecidableEq

/-- The 40-character truncation used as title fallback, both inside
generate_title (src/services/openai_service.py line 201) and in the chat
route (src/routes/chat_routes.py line 209): the first 40 characters,
stripped, plus an ellipsis when the input exceeds 40 characters. -/
def fallback_title (first_message : String) : String :=
  py_strip (py_take 40 first_message) ++ (if 40 < py_len first_message then "..." else "")

/-- src/services/openai_service.py generate_title (lines 148-201).
keySet models whether OPENAI_API_KEY is configured; its check happens in
_ensure_async_initialized, before the try block, so its failure escapes
the function. api is the outcome of the title-model call; every failure
inside the try block lands in the except branch and yields the fallback. -/
def generate_title (keySet : Bool) (first_message : String)
    (api : Except String String) : Except String String :=
  if !keySet then
    .error "OPENAI_API_KEY is not set"
  else if py_len first_message ≤ 40 then
    .ok (py_strip first_message)
  else
    match api with
    | .error _ => .ok (fallback_title first_message)
    | .ok content =>
        let title := py_strip content
        let title := py_strip (py_strip_char squote (py_strip_char dquote title))
        .ok (if 50 < py_len title then py_take 47 title ++ "..." else title)

lemma py_len_append (s t : String) : py_len (s ++ t) = py_len s + py_len t := by
  simp [py_len, String.data_append]

lemma py_len_take_le (n : Nat) (s : String) : py_len (py_take n s) ≤ n := by
  simp [py_len, py_take]

lemma length_dropWhile_le {α : Type} (p : α → Bool) :
    ∀ l : List α, (l.dropWhile p).length ≤ l.length
  | [] => le_refl _
  | a :: l => by
    by_cases h : p a = true
    · rw [List.dropWhile_cons_of_pos h]
      exact le_trans (length_dropWhile_le p l) (Nat.le_succ _)
    · rw [List.dropWhile_cons_of_neg h]

lemma py_len_strip_le (s : String) : py_len (py_strip s) ≤ py_len s := by
  unfold py_len py_strip
  calc ((s.data.dropWhile Char.isWhitespace).reverse.dropWhile Char.isWhitespace).reverse.length
      = ((s.data.dropWhile Char.isWhitespace).reverse.dropWhile Char.isWhitespace).length := by
        simp
    _ ≤ (s.data.dropWhile Char.isWhitespace).reverse.length := length_dropWhile_le _ _
    _ = (s.data.dropWhile Char.isWhitespace).length := by simp
    _ ≤ s.data.length := length_dropWhile_le _ _

lemma py_take_of_le (n : Nat) (s : String) (h : py_len s ≤ n) : py_take n s = s := by
  unfold py_take
  rw [List.take_of_length_le h]

/-- One item of a multi-modal message content list
(models/responses.py MessageContent). -/
inductive MessageContent where
  | text (t : String)
  | image_url (u : String)
deriving Repr, DecidableEq

/-- A message content: either a plain string or a multi-modal list
(models/responses.py Message.content). -/
inductive Content where
  | str (s : String)
  | parts (l : List MessageContent)
deriving Repr, DecidableEq

/-- models/responses.py Message. -/
structure Message where
  role : String
  content : Content
  timestamp : Nat
deriving Repr, DecidableEq

/-- models/responses.py ChatSession. -/
structure ChatSession where
  session_id : String
  user_id : String
  title : String
  messages : List Message
  created_at : Nat
  updated_at : Nat
deriving Repr, DecidableEq

/-- The Mongo filter used by every chat-route operation:
both the session id and the user id must match. -/
def session_match (sid uid : String) (d : ChatSession) : Bool :=
  d.session_id == sid && d.user_id == uid

/-- collection.find_one on the chat collection: first document matching
the (session id, user id) pair. -/
def find_one_session (db : List ChatSession) (sid uid : String) : Option ChatSession :=
  db.find? (session_match sid uid)

/-- collection.update_one with a full-document set and upsert=True:
replace the first matching document, or insert when none matches. -/
def update_one_session (db : List ChatSession) (sid uid : String)
    (doc : ChatSession) : List ChatSession :=
  match db with
  | [] => [doc]
  | d :: rest =>
      if session_match sid uid d then doc :: rest
      else d :: update_one_session rest sid uid doc

/-- collection.delete_one: remove the first matching document and report
the deleted count (0 or 1). -/
def delete_one_session (db : List ChatSession) (sid uid : String) :
    List ChatSession × Nat :=
  match db with
  | [] => ([], 0)
  | d :: rest =>
      if session_match sid uid d then (rest, 1)
      else
        let r := delete_one_session rest sid uid
        (d :: r.1, r.2)

/-- models/responses.py SessionCreateResponse. -/
structure SessionCreateResponse where
  session_id : String
  user_id : String
  title : String
  message : String
  created_at : Nat
deriving Repr, DecidableEq

/-- models/responses.py ChatResponse. -/
structure ChatResponse where
  session_id : String
  title : String
  message : String
  timestamp : Nat
deriving Repr, DecidableEq

/-- models/responses.py SessionHistoryResponse. -/
structure SessionHistoryResponse where
  session_id : String
  user_id : String
  title : String
  messages : List Message
  created_at : Nat
  updated_at : Nat
deriving Repr, DecidableEq

namespace ChatRoutes

/-- src/routes/chat_routes.py create_session (lines 23-66).
session_id is the value drawn from uuid.uuid4 for this call; now is the
creation timestamp. The new document starts with title New Chat and no
messages, and insert_one adds it to the collection. -/
def create_session (db : List ChatSession) (user_id session_id : String)
    (now : Nat) : SessionCreateResponse × List ChatSession :=
  let s : ChatSession :=
    { session_id := session_id, user_id := user_id, title := "New Chat",
      messages := [], created_at := now, updated_at := now }
  ({ session_id := session_id, user_id := user_id, title := s.title,
     message := "Session created successfully", created_at := now },
   db ++ [s])

/-- The audio-normalisation step of send_message (lines 157-177): no
audio keeps the form text; a transcription failure becomes a 400; a
transcription is appended to a non-empty form text, else used alone. -/
def audio_text (message : String) (audio : Option (Except String String)) :
    Except String String :=
  match audio with
  | none => .ok message
  | some (.error e) => .error e
  | some (.ok t) => .ok (if message != "" then message ++ " " ++ t else t)

/-- The title step of send_message (lines 202-209): on a first message
with text, the generated title, or on a raised exception the
40-character fallback; otherwise the title is left as it was. -/
def route_title (keySet : Bool) (is_first : Bool) (text : String)
    (titleApi : Except String String) (old : String) : String :=
  if is_first && text != "" then
    match generate_title keySet text titleApi with
    | .ok t => t
    | .error _ => fallback_title text
  else old

/-- The user-content step of send_message (lines 211-223): a
multi-modal list when an image is present, else the plain text. -/
def user_content (text : String) (image : Option String) : Content :=
  match image with
  | some img =>
      .parts ((if text != "" then [MessageContent.text text] else [])
              ++ [MessageContent.image_url img])
  | none => .str text

/-- src/routes/chat_routes.py send_message (lines 88-303).
audio is the transcription outcome when an audio file was supplied;
image is the encoded data URL when an image was supplied; keySet and
titleApi feed generate_title; chatApi is the outcome of chat_completion;
now is the request timestamp. -/
def send_message (db : List ChatSession) (user_id session_id message : String)
    (audio : Option (Except String String)) (image : Option String)
    (keySet : Bool) (titleApi chatApi : Except String String) (now : Nat) :
    Except HTTPException (ChatResponse × List ChatSession) :=
  match find_one_session db session_id user_id with
  | none => .error ⟨404, "Session not found or does not belong to user"⟩
  | some s =>
    let is_first_message := s.messages.isEmpty
    match audio_text message audio with
    | .error e => .error ⟨400, "Audio transcription failed: " ++ e⟩
    | .ok user_message_text =>
      if user_message_text == "" && image.isNone then
        .error ⟨400, "At least one of message, audio, or image must be provided"⟩
      else
        let title := route_title keySet is_first_message user_message_text titleApi s.title
        let user_message : Message :=
          ⟨"user", user_content user_message_text image, now⟩
        match chatApi with
        | .error e => .error ⟨500, "OpenAI API error: " ++ e⟩
        | .ok ai_response =>
          let assistant_message : Message := ⟨"assistant", .str ai_response, now⟩
          let updated : ChatSession :=
            { s with title := title,
                     messages := s.messages ++ [user_message, assistant_message],
                     updated_at := now }
          .ok ({ session_id := session_id, title := title,
                 message := ai_response, timestamp := now },
               update_one_session db session_id user_id updated)

/-- src/routes/chat_routes.py get_session_history (lines 306-354). -/
def get_session_history (db : List ChatSession) (session_id user_id : String) :
    Except HTTPException SessionHistoryResponse :=
  match find_one_session db session_id user_id with
  | none => .error ⟨404, "Session not found or does not belong to user"⟩
  | some s =>
      .ok ⟨s.session_id, s.user_id, s.title, s.messages, s.created_at, s.updated_at⟩

/-- src/routes/chat_routes.py delete_session (lines 357-399). -/
def delete_session (db : List ChatSession) (session_id user_id : String) :
    Except HTTPException (String × List ChatSession) :=
  let r := delete_one_session db session_id user_id
  if r.2 == 0 then .error ⟨404, "Session not found or does not belong to user"⟩
  else .ok ("Session deleted successfully", r.1)

end ChatRoutes

/-- models/group_chat.py GroupMessage. -/
structure GroupMessage where
  message_id : String
  user_id : String
  content : String
  timestamp : Nat
  is_ai : Bool
deriving Repr, DecidableEq

/-- models/group_chat.py Group; gtype is the GroupType value string. -/
structure Group where
  group_id : String
  name : String
  gtype : String
  creator_id : String
  members : List String
  created_at : Nat
  messages : List GroupMessage
deriving Repr, DecidableEq

/-- models/group_chat.py GroupChatSession. -/
structure GroupChatSession where
  session_id : String
  user_id : String
  created_at : Nat
deriving Repr, DecidableEq

/-- collection.find_one on the groups collection, keyed by group_id. -/
def find_one_group (groups : List Group) (gid : String) : Option Group :=
  groups.find? (fun g => g.group_id == gid)

/-- update_one with a push of one message: append to the first matching
group and leave every other document untouched. -/
def push_group_message (groups : List Group) (gid : String) (m : GroupMessage) :
    List Group :=
  match groups with
  | [] => []
  | g :: rest =>
      if g.group_id == gid then { g with messages := g.messages ++ [m] } :: rest
      else g :: push_group_message rest gid m

/-- update_one with a set of the members field on the first matching group. -/
def set_group_members (groups : List Group) (gid : String) (ms : List String) :
    List Group :=
  match groups with
  | [] => []
  | g :: rest =>
      if g.group_id == gid then { g with members := ms } :: rest
      else g :: set_group_members rest gid ms

/-- One write issued against the groups collection, recorded so that the
number and order of writes per operation is visible. -/
inductive DbWrite where
  | push_message (group_id : String) (m : GroupMessage)
  | set_members (group_id : String) (members : List String)
deriving Repr, DecidableEq

namespace GroupChatService

/-- src/services/group_chat_service.py _validate_session (lines 31-41):
true when a group-chat session document matches the pair. -/
def validate_session (sessions : List GroupChatSession) (sid uid : String) : Bool :=
  (sessions.find? (fun s => s.session_id == sid && s.user_id == uid)).isSome

/-- src/services/group_chat_service.py join_group (lines 62-81).
An already-member gets the group back unchanged with no write; otherwise
the user is appended to the member list and one set write is issued. -/
def join_group (sessions : List GroupChatSession) (groups : List Group)
    (user_id session_id group_id : String) :
    Except HTTPException (Group × List Group × List DbWrite) :=
  if !validate_session sessions session_id user_id then
    .error ⟨401, "Invalid session or user mismatch"⟩
  else
    match find_one_group groups group_id with
    | none => .error ⟨404, "Group not found"⟩
    | some group =>
      if group.members.contains user_id then
        .ok (group, groups, [])
      else
        let new_members := group.members ++ [user_id]
        .ok ({ group with members := new_members },
             set_group_members groups group_id new_members,
             [DbWrite.set_members group_id new_members])

/-- The reply-generation step of send_message (lines 126-135): the
completion result, or the fixed fallback text when the call raised. -/
def ai_reply (chatApi : Except String String) : String :=
  match chatApi with
  | .ok r => r
  | .error _ => "I\x27m having trouble connecting right now. Please try again later."

/-- src/services/group_chat_service.py send_message (lines 83-152).
user_message_id and ai_message_id are the uuid draws for the two
messages; chatApi is the outcome of the chat_completion call. A failed
completion is caught and replaced by a fixed fallback reply; both
messages are pushed by two separate writes. -/
def send_message (sessions : List GroupChatSession) (groups : List Group)
    (group_id session_id user_id content : String)
    (user_message_id ai_message_id : String) (now : Nat)
    (chatApi : Except String String) :
    Except HTTPException (GroupMessage × List Group × List DbWrite) :=
  if !validate_session sessions session_id user_id then
    .error ⟨401, "Invalid session or user mismatch"⟩
  else
    match find_one_group groups group_id with
    | none => .error ⟨404, "Group not found"⟩
    | some group =>
      if !(group.members.contains user_id) then
        .error ⟨403, "User is not a member of this group"⟩
      else
        let user_message : GroupMessage :=
          ⟨user_message_id, user_id, content, now, false⟩
        let groups1 := push_group_message groups group_id user_message
        let ai_response_content := ai_reply chatApi
        let ai_message : GroupMessage :=
          ⟨ai_message_id, "AI", ai_response_content, now, true⟩
        let groups2 := push_group_message groups1 group_id ai_message
        .ok (ai_message, groups2,
             [DbWrite.push_message group_id user_message,
              DbWrite.push_message group_id ai_message])

end GroupChatService

/-- models/global_language.py Interaction; itype is the InteractionType
value string. -/
structure Interaction where
  interaction_id : String
  itype : String
  user_input : String
  ai_response : String
  target_language : String
  audio_url : Option String
deriving Repr, DecidableEq

/-- models/global_language.py GlobalSession. -/
structure GlobalSession where
  session_id : String
  user_id : String
  interactions : List Interaction
deriving Repr, DecidableEq

/-- models/global_language.py ChatResponse. -/
structure GLChatResponse where
  response_text : String
  target_language : String
deriving Repr, DecidableEq

namespace GlobalLanguageService

/-- src/services/global_language_service.py _get_session (lines 43-49):
the filter carries ONLY the session id; the owner is not checked. -/
def get_session (sessions : List GlobalSession) (sid : String) :
    Except HTTPException GlobalSession :=
  match sessions.find? (fun s => s.session_id == sid) with
  | none => .error ⟨404, "Session not found"⟩
  | some s => .ok s

/-- src/services/global_language_service.py _add_interaction (lines 51-57):
push one interaction onto the first document matching the session id. -/
def add_interaction (sessions : List GlobalSession) (sid : String)
    (i : Interaction) : List GlobalSession :=
  match sessions with
  | [] => []
  | s :: rest =>
      if s.session_id == sid then
        { s with interactions := s.interactions ++ [i] } :: rest
      else s :: add_interaction rest sid i

/-- src/services/global_language_service.py process_chat_interaction
(lines 125-162). user_id is accepted but never used by the lookup;
chatApi is the outcome of the completion call; interaction_id is the
uuid draw for the stored interaction. -/
def process_chat_interaction (sessions : List GlobalSession)
    (session_id user_id message target_language : String)
    (chatApi : Except String String) (interaction_id : String) :
    Except HTTPException (GLChatResponse × List GlobalSession) :=
  match get_session sessions session_id with
  | .error e => .error e
  | .ok _ =>
    match chatApi with
    | .error e => .error ⟨500, "AI Response generation failed: " ++ e⟩
    | .ok ai =>
      let i : Interaction :=
        ⟨interaction_id, "chat", message, ai, target_language, none⟩
      .ok (⟨ai, target_language⟩, add_interaction sessions session_id i)

/-- src/services/global_language_service.py delete_session (lines 168-173):
the delete filter also carries only the session id. -/
def delete_session_gl (sessions : List GlobalSession) (sid : String) :
    Except HTTPException (List GlobalSession) :=
  match sessions.find? (fun s => s.session_id == sid) with
  | none => .error ⟨404, "Session not found"⟩
  | some _ => .ok (sessions.eraseP (fun s => s.session_id == sid))

end GlobalLanguageService

lemma py_len_ellipsis : py_len "..." = 3 := by decide

/-- Claim C10: generate_title returns at most 50 characters on every
returning path; an input of at most 40 characters comes back stripped; a
longer input yields the model title, truncated to 47 characters plus an
ellipsis when it exceeds 50; and on a generation failure the result is
the first 40 characters of the input, stripped, plus an ellipsis. -/
theorem generate_title_bounds (keySet : Bool) (msg : String)
    (api : Except String String) (t : String)
    (h : generate_title keySet msg api = .ok t) :
    py_len t ≤ 50
    ∧ (py_len msg ≤ 40 → t = py_strip msg)
    ∧ (∀ e, api = Except.error e → 40 < py_len msg →
        t = py_strip (py_take 40 msg) ++ "...")
    ∧ (∀ c, api = Except.ok c → 40 < py_len msg →
        t = (if 50 < py_len (py_strip (py_strip_char squote (py_strip_char dquote (py_strip c)))) then
              py_take 47 (py_strip (py_strip_char squote (py_strip_char dquote (py_strip c)))) ++ "..."
             else py_strip (py_strip_char squote (py_strip_char dquote (py_strip c))))) := by
  cases keySet with
  | false => simp [generate_title] at h
  | true =>
    by_cases hlen : py_len msg ≤ 40
    · have ht : t = py_strip msg := by
        simp [generate_title, hlen] at h
        exact h.symm
      refine ⟨?_, fun _ => ht, ?_, ?_⟩
      · rw [ht]
        exact le_trans (py_len_strip_le msg) (le_trans hlen (by norm_num))
      · intro e _ hgt
        exact absurd hgt (not_lt.mpr hlen)
      · intro c _ hgt
        exact absurd hgt (not_lt.mpr hlen)
    · have hgt : 40 < py_len msg := not_le.mp hlen
      cases api with
      | error e0 =>
        have ht : t = py_strip (py_take 40 msg) ++ "..." := by
          simp [generate_title, hlen, fallback_title, if_pos hgt] at h
          exact h.symm
        refine ⟨?_, ?_, ?_, ?_⟩
        · rw [ht, py_len_append, py_len_ellipsis]
          have := le_trans (py_len_strip_le (py_take 40 msg)) (py_len_take_le 40 msg)
          omega
        · intro hle
          exact absurd hgt (not_lt.mpr hle)
        · intro e he _
          exact ht
        · intro c hc _
          cases hc
      | ok c0 =>
        have ht : t =
            (if 50 < py_len (py_strip (py_strip_char squote (py_strip_char dquote (py_strip c0)))) then
              py_take 47 (py_strip (py_strip_char squote (py_strip_char dquote (py_strip c0)))) ++ "..."
             else py_strip (py_strip_char squote (py_strip_char dquote (py_strip c0)))) := by
          simp [generate_title, hlen] at h
          exact h.symm
        refine ⟨?_, ?_, ?_, ?_⟩
        · rw [ht]
          by_cases h50 : 50 < py_len (py_strip (py_strip_char squote (py_strip_char dquote (py_strip c0))))
          · rw [if_pos h50, py_len_append, py_len_ellipsis]
            have := py_len_take_le 47
              (py_strip (py_strip_char squote (py_strip_char dquote (py_strip c0))))
            omega
          · rw [if_neg h50]
            omega
        · intro hle
          exact absurd hgt (not_lt.mpr hle)
        · intro e he _
          cases he
        · intro c hc _
          cases hc
          exact ht

lemma route_title_not_first (k : Bool) (text : String)
    (api : Except String String) (old : String) :
    ChatRoutes.route_title k false text api old = old := by
  simp [ChatRoutes.route_title]

lemma route_title_empty_text (k b : Bool) (api : Except String String) (old : String) :
    ChatRoutes.route_title k b "" api old = old := by
  simp [ChatRoutes.route_title]

lemma route_title_fail (keySet : Bool) (text : String)
    (titleApi : Except String String) (old : String)
    (htext : text ≠ "")
    (hfail : keySet = false ∨ ∃ e, titleApi = Except.error e) :
    ChatRoutes.route_title keySet true text titleApi old = fallback_title text := by
  unfold ChatRoutes.route_title
  have htext2 : (text != "") = true := by simp [htext]
  rw [htext2]
  simp only [Bool.and_self, if_true]
  rcases hfail with hk | ⟨e, he⟩
  · subst hk
    simp [generate_title]
  · subst he
    cases keySet with
    | false => simp [generate_title]
    | true =>
      by_cases hlen : py_len text ≤ 40
      · simp only [generate_title, Bool.not_true, Bool.false_eq_true, if_false, if_pos hlen]
        rw [fallback_title, if_neg (not_lt.mpr hlen), py_take_of_le _ _ hlen,
          String.append_empty]
      · simp [generate_title, hlen]

/-- Claim C3: on a first interaction with non-empty text whose
title-generation call fails — the title-model call raised or the service
initialisation raised — the session title becomes the 40-character
truncation fallback, and the failure is not propagated: with a
successful completion the operation still returns its normal response
and performs its normal write. -/
theorem title_failure_uses_fallback
    (db : List ChatSession) (uid sid text : String) (keySet : Bool)
    (titleApi : Except String String) (reply : String) (now : Nat)
    (s : ChatSession)
    (hfind : find_one_session db sid uid = some s)
    (hfirst : s.messages = [])
    (htext : text ≠ "")
    (hfail : keySet = false ∨ ∃ e, titleApi = Except.error e) :
    ChatRoutes.send_message db uid sid text none none keySet titleApi
        (Except.ok reply) now
      = .ok ({ session_id := sid, title := fallback_title text,
               message := reply, timestamp := now },
             update_one_session db sid uid
               { s with title := fallback_title text,
                        messages := s.messages ++
                          [⟨"user", Content.str text, now⟩,
                           ⟨"assistant", Content.str reply, now⟩],
                        updated_at := now }) := by
  have htext2 : (text == "") = false := by
    simpa using htext
  have hroute := route_title_fail keySet text titleApi s.title htext hfail
  simp [ChatRoutes.send_message, hfind, ChatRoutes.audio_text, ChatRoutes.user_content,
    htext2, hfirst, hroute]

/-- Witness for claim C3: a concrete first message on a stored session
with the title service unavailable. -/
theorem title_failure_uses_fallback_witness :
    ChatRoutes.send_message [⟨"s1", "u1", "New Chat", [], 0, 0⟩] "u1" "s1" "hello"
        none none false (Except.ok "t") (Except.ok "re") 1
      = .ok ({ session_id := "s1", title := fallback_title "hello",
               message := "re", timestamp := 1 },
             update_one_session [⟨"s1", "u1", "New Chat", [], 0, 0⟩] "s1" "u1"
               { session_id := "s1", user_id := "u1", title := fallback_title "hello",
                 messages := [] ++
                   [⟨"user", Content.str "hello", 1⟩,
                    ⟨"assistant", Content.str "re", 1⟩],
                 created_at := 0, updated_at := 1 }) :=
  title_failure_uses_fallback [⟨"s1", "u1", "New Chat", [], 0, 0⟩] "u1" "s1" "hello"
    false (Except.ok "t") "re" 1 ⟨"s1", "u1", "New Chat", [], 0, 0⟩
    (by rfl) rfl (by decide) (Or.inl rfl)

lemma find_one_update_self (db : List ChatSession) (sid uid : String)
    (doc s : ChatSession)
    (hfind : find_one_session db sid uid = some s)
    (hdoc : session_match sid uid doc = true) :
    find_one_session (update_one_session db sid uid doc) sid uid = some doc := by
  induction db with
  | nil => simp [find_one_session] at hfind
  | cons d rest ih =>
    by_cases hd : session_match sid uid d
    · simp [update_one_session, hd, find_one_session, List.find?_cons_of_pos, hdoc]
    · have hfind2 : find_one_session rest sid uid = some s := by
        simpa [find_one_session, List.find?_cons_of_neg, hd] using hfind
      simpa [update_one_session, hd, find_one_session, List.find?_cons_of_neg,
        hd] using ih hfind2

/-- Counterexample to claim C4 as stated: an image-only first
interaction triggers no title generation and leaves the stored title at
its default New Chat, even though the title model is available. -/
theorem first_interaction_can_keep_default_title :
    ChatRoutes.send_message [⟨"s1", "u1", "New Chat", [], 0, 0⟩] "u1" "s1" ""
        none (some "data:image/jpeg;base64,AAAA") true (Except.ok "Generated Title")
        (Except.ok "re") 1
      = .ok ({ session_id := "s1", title := "New Chat", message := "re", timestamp := 1 },
             [⟨"s1", "u1", "New Chat",
               [⟨"user", Content.parts [MessageContent.image_url "data:image/jpeg;base64,AAAA"], 1⟩,
                ⟨"assistant", Content.str "re", 1⟩], 0, 1⟩]) := by rfl

/-- Claim C4 (amended): the first interaction of a session triggers
title generation when its text is non-empty — the stored and returned
title become the generated title, or its fallback on failure — while an
image-only first interaction leaves the title unchanged, and every
subsequent interaction leaves the title unchanged. -/
theorem title_set_on_first_interaction_only
    (db : List ChatSession) (uid sid text : String) (image : Option String)
    (keySet : Bool) (titleApi : Except String String) (reply : String) (now : Nat)
    (s : ChatSession) (r : ChatResponse) (db2 : List ChatSession)
    (hfind : find_one_session db sid uid = some s)
    (hok : ChatRoutes.send_message db uid sid text none image keySet titleApi
        (Except.ok reply) now = .ok (r, db2)) :
    (s.messages = [] → text ≠ "" →
        ∀ t0, generate_title keySet text titleApi = .ok t0 → r.title = t0)
    ∧ (s.messages = [] → text ≠ "" →
        ∀ e, generate_title keySet text titleApi = .error e →
          r.title = fallback_title text)
    ∧ (s.messages = [] → text = "" → r.title = s.title)
    ∧ (s.messages ≠ [] → r.title = s.title)
    ∧ (find_one_session db2 sid uid).map ChatSession.title = some r.title := by
  have hs := List.find?_some hfind
  simp only [ChatRoutes.send_message, hfind, ChatRoutes.audio_text] at hok
  by_cases hcond : ((text == "") && image.isNone) = true
  · simp [hcond] at hok
  · simp only [hcond, if_false, Bool.false_eq_true] at hok
    rw [Except.ok.injEq, Prod.mk.injEq] at hok
    obtain ⟨hr, hdb⟩ := hok
    subst hdb
    subst hr
    have hupd := find_one_update_self db sid uid
      { s with
        title := ChatRoutes.route_title keySet s.messages.isEmpty text titleApi s.title,
        messages := s.messages ++
          [⟨"user", ChatRoutes.user_content text image, now⟩,
           ⟨"assistant", Content.str reply, now⟩],
        updated_at := now } s hfind (by simpa [session_match] using hs)
    refine ⟨?_, ?_, ?_, ?_, ?_⟩
    · intro hfirst htext t0 hgen
      simp [ChatRoutes.route_title, hfirst, htext, hgen]
    · intro hfirst htext e hgen
      simp [ChatRoutes.route_title, hfirst, htext, hgen]
    · intro hfirst htext
      subst htext
      simp [route_title_empty_text, hfirst]
    · intro hnotfirst
      have hne : s.messages.isEmpty = false := by
        cases hm : s.messages with
        | nil => exact absurd hm hnotfirst
        | cons a l => simp
      simp [hne, route_title_not_first]
    · rw [hupd]
      simp

/-- Witness for the amended claim C4: a concrete first text message. -/
theorem title_set_on_first_interaction_only_witness :
    (([] : List Message) = [] → "hi" ≠ "" →
        ∀ t0, generate_title true "hi" (Except.ok "T") = .ok t0 →
          ChatResponse.title ⟨"s1", "hi", "re", 1⟩ = t0)
    ∧ (([] : List Message) = [] → "hi" ≠ "" →
        ∀ e, generate_title true "hi" (Except.ok "T") = .error e →
          ChatResponse.title ⟨"s1", "hi", "re", 1⟩ = fallback_title "hi")
    ∧ (([] : List Message) = [] → "hi" = "" →
        ChatResponse.title ⟨"s1", "hi", "re", 1⟩ = "New Chat")
    ∧ (([] : List Message) ≠ [] →
        ChatResponse.title ⟨"s1", "hi", "re", 1⟩ = "New Chat")
    ∧ (find_one_session
          [⟨"s1", "u1", "hi",
            [⟨"user", Content.str "hi", 1⟩, ⟨"assistant", Content.str "re", 1⟩], 0, 1⟩]
          "s1" "u1").map ChatSession.title
        = some (ChatResponse.title ⟨"s1", "hi", "re", 1⟩) :=
  title_set_on_first_interaction_only [⟨"s1", "u1", "New Chat", [], 0, 0⟩] "u1" "s1"
    "hi" none true (Except.ok "T") "re" 1 ⟨"s1", "u1", "New Chat", [], 0, 0⟩
    ⟨"s1", "hi", "re", 1⟩
    [⟨"s1", "u1", "hi",
      [⟨"user", Content.str "hi", 1⟩, ⟨"assistant", Content.str "re", 1⟩], 0, 1⟩]
    (by rfl) (by rfl)

lemma delete_count_zero_iff (db : List ChatSession) (sid uid : String) :
    (delete_one_session db sid uid).2 = 0 ↔ find_one_session db sid uid = none := by
  induction db with
  | nil => simp [delete_one_session, find_one_session]
  | cons d rest ih =>
    by_cases hd : session_match sid uid d
    · simp [delete_one_session, hd, find_one_session, List.find?_cons_of_pos]
    · simpa [delete_one_session, hd, find_one_session,
        List.find?_cons_of_neg _ hd] using ih

lemma find_after_delete_none (db : List ChatSession) (sid uid : String)
    (s : ChatSession)
    (hfind : find_one_session db sid uid = some s)
    (hcount : db.countP (session_match sid uid) = 1) :
    find_one_session (delete_one_session db sid uid).1 sid uid = none := by
  induction db with
  | nil => simp [find_one_session] at hfind
  | cons d rest ih =>
    by_cases hd : session_match sid uid d
    · have hrest : rest.countP (session_match sid uid) = 0 := by
        have := List.countP_cons_of_pos (session_match sid uid) rest hd
        omega
      have : ∀ x ∈ rest, ¬ session_match sid uid x = true := by
        rw [← List.countP_eq_zero]
        exact hrest
      simp only [delete_one_session, if_pos hd]
      rw [find_one_session, List.find?_eq_none]
      exact this
    · have hfind2 : find_one_session rest sid uid = some s := by
        simpa [find_one_session, List.find?_cons_of_neg _ hd] using hfind
      have hcount2 : rest.countP (session_match sid uid) = 1 := by
        have := List.countP_cons_of_neg (session_match sid uid) rest hd
        omega
      simpa [delete_one_session, hd, find_one_session,
        List.find?_cons_of_neg _ hd] using ih hfind2 hcount2

/-- Counterexample to claim C1 as stated: in the global-language
service the (session id, owner id) pair supplied to a chat interaction
matches no stored document — the stored owner is alice, the requester is
bob — yet the operation succeeds instead of failing with not-found,
because the lookup filters on the session id alone. -/
theorem owner_mismatch_succeeds_in_global_language :
    (([⟨"s1", "alice", []⟩] : List GlobalSession).find?
        (fun s => s.session_id == "s1" && s.user_id == "bob") = none)
    ∧ GlobalLanguageService.process_chat_interaction [⟨"s1", "alice", []⟩] "s1" "bob"
        "hi" "English" (Except.ok "bonjour") "i1"
      = .ok (⟨"bonjour", "English"⟩,
             [⟨"s1", "alice", [⟨"i1", "chat", "hi", "bonjour", "English", none⟩]⟩]) :=
  ⟨by rfl, by rfl⟩

/-- Claim C1 (amended): the chat routes key every lookup (history,
message send, delete) on the (session id, user id) pair and fail with a
404 not-found when the pair matches no stored document — in particular,
history for a session stored under a different owner fails with
not-found — whereas the global-language service validates the session id
only, so its interactions succeed on an existing session regardless of
the supplied owner. -/
theorem pair_mismatch_fails_not_found
    (db : List ChatSession) (sid uid : String)
    (hnone : find_one_session db sid uid = none) :
    ChatRoutes.get_session_history db sid uid
        = .error ⟨404, "Session not found or does not belong to user"⟩
    ∧ (∀ text audio image keySet titleApi chatApi now,
        ChatRoutes.send_message db uid sid text audio image keySet titleApi chatApi now
          = .error ⟨404, "Session not found or does not belong to user"⟩)
    ∧ ChatRoutes.delete_session db sid uid
        = .error ⟨404, "Session not found or does not belong to user"⟩
    ∧ (∀ (sessions : List GlobalSession) (sid2 : String) (s0 : GlobalSession),
        sessions.find? (fun s => s.session_id == sid2) = some s0 →
        ∀ uid2 msg lang reply iid,
          GlobalLanguageService.process_chat_interaction sessions sid2 uid2 msg lang
              (Except.ok reply) iid
            = .ok (⟨reply, lang⟩,
                   GlobalLanguageService.add_interaction sessions sid2
                     ⟨iid, "chat", msg, reply, lang, none⟩)) := by
  refine ⟨?_, ?_, ?_, ?_⟩
  · simp [ChatRoutes.get_session_history, hnone]
  · intro text audio image keySet titleApi chatApi now
    simp [ChatRoutes.send_message, hnone]
  · have hz : (delete_one_session db sid uid).2 = 0 :=
      (delete_count_zero_iff db sid uid).mpr hnone
    simp [ChatRoutes.delete_session, hz]
  · intro sessions sid2 s0 hs0 uid2 msg lang reply iid
    simp [GlobalLanguageService.process_chat_interaction,
      GlobalLanguageService.get_session, hs0]

/-- Witness for the amended claim C1: a store holding one session that
matches neither supplied pair. -/
theorem pair_mismatch_fails_not_found_witness :
    ChatRoutes.get_session_history [⟨"s2", "u1", "T", [], 0, 0⟩] "s1" "u1"
        = .error ⟨404, "Session not found or does not belong to user"⟩
    ∧ (∀ text audio image keySet titleApi chatApi now,
        ChatRoutes.send_message [⟨"s2", "u1", "T", [], 0, 0⟩] "u1" "s1" text audio image
            keySet titleApi chatApi now
          = .error ⟨404, "Session not found or does not belong to user"⟩)
    ∧ ChatRoutes.delete_session [⟨"s2", "u1", "T", [], 0, 0⟩] "s1" "u1"
        = .error ⟨404, "Session not found or does not belong to user"⟩
    ∧ (∀ (sessions : List GlobalSession) (sid2 : String) (s0 : GlobalSession),
        sessions.find? (fun s => s.session_id == sid2) = some s0 →
        ∀ uid2 msg lang reply iid,
          GlobalLanguageService.process_chat_interaction sessions sid2 uid2 msg lang
              (Except.ok reply) iid
            = .ok (⟨reply, lang⟩,
                   GlobalLanguageService.add_interaction sessions sid2
                     ⟨iid, "chat", msg, reply, lang, none⟩)) :=
  pair_mismatch_fails_not_found [⟨"s2", "u1", "T", [], 0, 0⟩] "s1" "u1" (by rfl)

/-- Claim C6: a chat-route delete fails with 404 exactly when no stored
document matches the (session id, user id) pair; when exactly one
document matches, the first delete succeeds and a second delete of the
same pair fails with 404. -/
theorem delete_twice_behavior (db : List ChatSession) (sid uid : String) :
    (ChatRoutes.delete_session db sid uid
        = .error ⟨404, "Session not found or does not belong to user"⟩
      ↔ find_one_session db sid uid = none)
    ∧ (∀ s, find_one_session db sid uid = some s →
        db.countP (session_match sid uid) = 1 →
        ChatRoutes.delete_session db sid uid
            = .ok ("Session deleted successfully", (delete_one_session db sid uid).1)
          ∧ ChatRoutes.delete_session (delete_one_session db sid uid).1 sid uid
            = .error ⟨404, "Session not found or does not belong to user"⟩) := by
  constructor
  · by_cases hz : (delete_one_session db sid uid).2 = 0
    · constructor
      · intro _
        exact (delete_count_zero_iff db sid uid).mp hz
      · intro _
        simp [ChatRoutes.delete_session, hz]
    · constructor
      · intro h
        simp [ChatRoutes.delete_session, hz] at h
      · intro hnone
        exact absurd ((delete_count_zero_iff db sid uid).mpr hnone) hz
  · intro s hfind hcount
    have hz : ¬ (delete_one_session db sid uid).2 = 0 := by
      intro hz0
      rw [(delete_count_zero_iff db sid uid).mp hz0] at hfind
      cases hfind
    constructor
    · simp [ChatRoutes.delete_session, hz]
    · have hafter := find_after_delete_none db sid uid s hfind hcount
      have hz2 : ((delete_one_session (delete_one_session db sid uid).1 sid uid).2) = 0 :=
        (delete_count_zero_iff _ sid uid).mpr hafter
      simp [ChatRoutes.delete_session, hz2]

/-- Witness for claim C6: deleting the only stored session twice. -/
theorem delete_twice_behavior_witness :
    ChatRoutes.delete_session [⟨"s1", "u1", "T", [], 0, 0⟩] "s1" "u1"
        = .ok ("Session deleted successfully", [])
    ∧ ChatRoutes.delete_session [] "s1" "u1"
        = .error ⟨404, "Session not found or does not belong to user"⟩ :=
  (delete_twice_behavior [⟨"s1", "u1", "T", [], 0, 0⟩] "s1" "u1").2
    ⟨"s1", "u1", "T", [], 0, 0⟩ (by rfl) (by rfl)

lemma find_one_group_cons_pos (a : Group) (rest : List Group) (gid : String)
    (ha : (a.group_id == gid) = true) :
    find_one_group (a :: rest) gid = some a :=
  @List.find?_cons_of_pos Group (fun x => x.group_id == gid) a rest ha

lemma find_one_group_cons_neg (a : Group) (rest : List Group) (gid : String)
    (ha : ¬ (a.group_id == gid) = true) :
    find_one_group (a :: rest) gid = find_one_group rest gid :=
  @List.find?_cons_of_neg Group (fun x => x.group_id == gid) a rest ha

lemma find_one_group_push (groups : List Group) (gid : String) (m : GroupMessage)
    (g : Group) (h : find_one_group groups gid = some g) :
    find_one_group (push_group_message groups gid m) gid
      = some { g with messages := g.messages ++ [m] } := by
  induction groups with
  | nil => simp [find_one_group] at h
  | cons a rest ih =>
    by_cases ha : (a.group_id == gid) = true
    · have hag : a = g := by
        rw [find_one_group_cons_pos a rest gid ha] at h
        exact Option.some.inj h
      subst hag
      simp only [push_group_message]
      rw [if_pos ha]
      exact find_one_group_cons_pos _ rest gid ha
    · have h2 : find_one_group rest gid = some g := by
        rw [find_one_group_cons_neg a rest gid ha] at h
        exact h
      simp only [push_group_message]
      rw [if_neg ha, find_one_group_cons_neg a _ gid ha]
      exact ih h2

/-- Claim C2: a group-chat send on an existing group by a member grows
the message list of the group by exactly two entries — first the user
message, then the generated reply — via two separate push writes, for
every outcome of the reply-generation call. -/
theorem group_send_appends_two
    (sessions : List GroupChatSession) (groups : List Group)
    (gid sid uid content umid amid : String) (now : Nat)
    (chatApi : Except String String) (g : Group)
    (hs : GroupChatService.validate_session sessions sid uid = true)
    (hg : find_one_group groups gid = some g)
    (hm : g.members.contains uid = true) :
    GroupChatService.send_message sessions groups gid sid uid content umid amid now chatApi
      = .ok (⟨amid, "AI", GroupChatService.ai_reply chatApi, now, true⟩,
             push_group_message (push_group_message groups gid ⟨umid, uid, content, now, false⟩)
               gid ⟨amid, "AI", GroupChatService.ai_reply chatApi, now, true⟩,
             [DbWrite.push_message gid ⟨umid, uid, content, now, false⟩,
              DbWrite.push_message gid ⟨amid, "AI", GroupChatService.ai_reply chatApi, now, true⟩])
    ∧ find_one_group
        (push_group_message (push_group_message groups gid ⟨umid, uid, content, now, false⟩)
          gid ⟨amid, "AI", GroupChatService.ai_reply chatApi, now, true⟩) gid
      = some { g with messages := g.messages ++
                [⟨umid, uid, content, now, false⟩,
                 ⟨amid, "AI", GroupChatService.ai_reply chatApi, now, true⟩] } := by
  constructor
  · have hm2 : uid ∈ g.members := by simpa using hm
    simp [GroupChatService.send_message, hs, hg, hm2]
  · have h1 := find_one_group_push groups gid ⟨umid, uid, content, now, false⟩ g hg
    have h2 := find_one_group_push _ gid ⟨amid, "AI", GroupChatService.ai_reply chatApi, now, true⟩ _ h1
    simpa using h2

/-- Witness for claim C2: a concrete send whose reply generation
succeeds. -/
theorem group_send_appends_two_witness :
    GroupChatService.send_message [⟨"s1", "u1", 0⟩]
        [⟨"g1", "grp", "general", "u1", ["u1"], 0, []⟩] "g1" "s1" "u1" "hi" "m1" "m2" 5
        (Except.ok "re")
      = .ok (⟨"m2", "AI", GroupChatService.ai_reply (Except.ok "re"), 5, true⟩,
             push_group_message
               (push_group_message [⟨"g1", "grp", "general", "u1", ["u1"], 0, []⟩] "g1"
                 ⟨"m1", "u1", "hi", 5, false⟩)
               "g1" ⟨"m2", "AI", GroupChatService.ai_reply (Except.ok "re"), 5, true⟩,
             [DbWrite.push_message "g1" ⟨"m1", "u1", "hi", 5, false⟩,
              DbWrite.push_message "g1" ⟨"m2", "AI", GroupChatService.ai_reply (Except.ok "re"), 5, true⟩])
    ∧ find_one_group
        (push_group_message
          (push_group_message [⟨"g1", "grp", "general", "u1", ["u1"], 0, []⟩] "g1"
            ⟨"m1", "u1", "hi", 5, false⟩)
          "g1" ⟨"m2", "AI", GroupChatService.ai_reply (Except.ok "re"), 5, true⟩) "g1"
      = some ⟨"g1", "grp", "general", "u1", ["u1"], 0,
              [] ++ [⟨"m1", "u1", "hi", 5, false⟩,
                     ⟨"m2", "AI", GroupChatService.ai_reply (Except.ok "re"), 5, true⟩]⟩ :=
  group_send_appends_two [⟨"s1", "u1", 0⟩]
    [⟨"g1", "grp", "general", "u1", ["u1"], 0, []⟩] "g1" "s1" "u1" "hi" "m1" "m2" 5
    (Except.ok "re") ⟨"g1", "grp", "general", "u1", ["u1"], 0, []⟩
    (by rfl) (by rfl) (by rfl)

/-- Claim C9: joining a group is idempotent — an existing member gets
the group back unchanged with no write issued — while a non-member is
appended exactly once to the end of the member list. -/
theorem join_group_idempotent
    (sessions : List GroupChatSession) (groups : List Group)
    (uid sid gid : String) (g : Group)
    (hs : GroupChatService.validate_session sessions sid uid = true)
    (hg : find_one_group groups gid = some g) :
    (g.members.contains uid = true →
        GroupChatService.join_group sessions groups uid sid gid = .ok (g, groups, []))
    ∧ (g.members.contains uid = false →
        GroupChatService.join_group sessions groups uid sid gid
          = .ok ({ g with members := g.members ++ [uid] },
                 set_group_members groups gid (g.members ++ [uid]),
                 [DbWrite.set_members gid (g.members ++ [uid])])
          ∧ (g.members ++ [uid]).count uid = 1) := by
  constructor
  · intro hmem
    have hmem2 : uid ∈ g.members := by simpa using hmem
    simp [GroupChatService.join_group, hs, hg, hmem2]
  · intro hmem
    have hnot : uid ∉ g.members := by simpa using hmem
    constructor
    · simp [GroupChatService.join_group, hs, hg, hnot]
    · rw [List.count_append]
      simp [List.count_eq_zero.mpr hnot]

/-- Witness for claim C9: joining twice — once as a non-member, once as
a member — on concrete groups. -/
theorem join_group_idempotent_witness :
    (List.contains ["u1"] "u2" = true →
        GroupChatService.join_group [⟨"s1", "u2", 0⟩]
            [⟨"g1", "grp", "general", "u1", ["u1"], 0, []⟩] "u2" "s1" "g1"
          = .ok (⟨"g1", "grp", "general", "u1", ["u1"], 0, []⟩,
                 [⟨"g1", "grp", "general", "u1", ["u1"], 0, []⟩], []))
    ∧ (List.contains ["u1"] "u2" = false →
        GroupChatService.join_group [⟨"s1", "u2", 0⟩]
            [⟨"g1", "grp", "general", "u1", ["u1"], 0, []⟩] "u2" "s1" "g1"
          = .ok (⟨"g1", "grp", "general", "u1", ["u1"] ++ ["u2"], 0, []⟩,
                 set_group_members [⟨"g1", "grp", "general", "u1", ["u1"], 0, []⟩] "g1"
                   (["u1"] ++ ["u2"]),
                 [DbWrite.set_members "g1" (["u1"] ++ ["u2"])])
          ∧ (["u1"] ++ ["u2"]).count "u2" = 1) :=
  join_group_idempotent [⟨"s1", "u2", 0⟩]
    [⟨"g1", "grp", "general", "u1", ["u1"], 0, []⟩] "u2" "s1" "g1"
    ⟨"g1", "grp", "general", "u1", ["u1"], 0, []⟩ (by rfl) (by rfl)

/-- Counterexample to claim C5 as stated: when reply generation throws,
the group-chat send handler does not surface a server error — it
substitutes a fixed fallback reply and returns a success response. -/
theorem group_send_substitutes_success_on_error :
    GroupChatService.send_message [⟨"s1", "u1", 0⟩]
        [⟨"g1", "grp", "general", "u1", ["u1"], 0, []⟩] "g1" "s1" "u1" "hi" "m1" "m2" 1
        (Except.error "boom")
      = .ok (⟨"m2", "AI",
              "I\x27m having trouble connecting right now. Please try again later.",
              1, true⟩,
             [⟨"g1", "grp", "general", "u1", ["u1"], 0,
               [⟨"m1", "u1", "hi", 1, false⟩,
                ⟨"m2", "AI",
                 "I\x27m having trouble connecting right now. Please try again later.",
                 1, true⟩]⟩],
             [DbWrite.push_message "g1" ⟨"m1", "u1", "hi", 1, false⟩,
              DbWrite.push_message "g1"
                ⟨"m2", "AI",
                 "I\x27m having trouble connecting right now. Please try again later.",
                 1, true⟩]) := by rfl

/-- Claim C5 (amended): the chat-route handler surfaces a completion
failure as a generic 500 server error whose detail embeds the raised
exception text, and never substitutes a success response; the group-chat
send handler is the exception — it catches the reply-generation failure
and returns a success response carrying a fixed fallback reply. Neither
handler retries the failed call. -/
theorem upstream_failure_surfaced :
    (∀ (db : List ChatSession) (uid sid text : String) (keySet : Bool)
        (titleApi : Except String String) (now : Nat) (e : String) (s : ChatSession),
        find_one_session db sid uid = some s → text ≠ "" →
        ChatRoutes.send_message db uid sid text none none keySet titleApi
            (Except.error e) now
          = .error ⟨500, "OpenAI API error: " ++ e⟩)
    ∧ (∀ (sessions : List GroupChatSession) (groups : List Group)
        (gid sid uid content umid amid : String) (now : Nat) (e : String) (g : Group),
        GroupChatService.validate_session sessions sid uid = true →
        find_one_group groups gid = some g →
        g.members.contains uid = true →
        GroupChatService.send_message sessions groups gid sid uid content umid amid now
            (Except.error e)
          = .ok (⟨amid, "AI",
                  "I\x27m having trouble connecting right now. Please try again later.",
                  now, true⟩,
                 push_group_message
                   (push_group_message groups gid ⟨umid, uid, content, now, false⟩) gid
                   ⟨amid, "AI",
                    "I\x27m having trouble connecting right now. Please try again later.",
                    now, true⟩,
                 [DbWrite.push_message gid ⟨umid, uid, content, now, false⟩,
                  DbWrite.push_message gid
                    ⟨amid, "AI",
                     "I\x27m having trouble connecting right now. Please try again later.",
                     now, true⟩])) := by
  constructor
  · intro db uid sid text keySet titleApi now e s hfind htext
    have htext2 : (text == "") = false := by simpa using htext
    simp [ChatRoutes.send_message, hfind, ChatRoutes.audio_text, htext2]
  · intro sessions groups gid sid uid content umid amid now e g hs hg hm
    have hm2 : uid ∈ g.members := by simpa using hm
    simp [GroupChatService.send_message, GroupChatService.ai_reply, hs, hg, hm2]

/-- Witness for the amended claim C5: a concrete failing completion on
both handlers. -/
theorem upstream_failure_surfaced_witness :
    ChatRoutes.send_message [⟨"s1", "u1", "T", [], 0, 0⟩] "u1" "s1" "hi" none none true
        (Except.ok "t") (Except.error "boom") 1
      = .error ⟨500, "OpenAI API error: " ++ "boom"⟩
    ∧ GroupChatService.send_message [⟨"s2", "u2", 0⟩]
        [⟨"g1", "grp", "general", "u2", ["u2"], 0, []⟩] "g1" "s2" "u2" "hey" "m1" "m2" 2
        (Except.error "down")
      = .ok (⟨"m2", "AI",
              "I\x27m having trouble connecting right now. Please try again later.",
              2, true⟩,
             push_group_message
               (push_group_message [⟨"g1", "grp", "general", "u2", ["u2"], 0, []⟩] "g1"
                 ⟨"m1", "u2", "hey", 2, false⟩) "g1"
               ⟨"m2", "AI",
                "I\x27m having trouble connecting right now. Please try again later.",
                2, true⟩,
             [DbWrite.push_message "g1" ⟨"m1", "u2", "hey", 2, false⟩,
              DbWrite.push_message "g1"
                ⟨"m2", "AI",
                 "I\x27m having trouble connecting right now. Please try again later.",
                 2, true⟩]) :=
  ⟨upstream_failure_surfaced.1 [⟨"s1", "u1", "T", [], 0, 0⟩] "u1" "s1" "hi" true
      (Except.ok "t") 1 "boom" ⟨"s1", "u1", "T", [], 0, 0⟩ (by rfl) (by decide),
   upstream_failure_surfaced.2 [⟨"s2", "u2", 0⟩]
      [⟨"g1", "grp", "general", "u2", ["u2"], 0, []⟩] "g1" "s2" "u2" "hey" "m1" "m2" 2
      "down" ⟨"g1", "grp", "general", "u2", ["u2"], 0, []⟩ (by rfl) (by rfl) (by rfl)⟩

lemma forall2_messages_update (db : List ChatSession) (sid uid : String)
    (doc s : ChatSession)
    (hfind : find_one_session db sid uid = some s)
    (hpre : s.messages <+: doc.messages) :
    List.Forall₂ (fun a b => a.messages <+: b.messages) db
      (update_one_session db sid uid doc) := by
  induction db with
  | nil => simp [find_one_session] at hfind
  | cons d rest ih =>
    by_cases hd : session_match sid uid d
    · have hds : d = s := by
        have : List.find? (session_match sid uid) (d :: rest) = some d :=
          List.find?_cons_of_pos _ hd
        rw [find_one_session, this] at hfind
        exact Option.some.inj hfind
      subst hds
      simp only [update_one_session, if_pos hd]
      exact List.Forall₂.cons hpre (List.forall₂_same.mpr fun x _ => List.prefix_refl _)
    · have hfind2 : find_one_session rest sid uid = some s := by
        have : List.find? (session_match sid uid) (d :: rest)
            = List.find? (session_match sid uid) rest :=
          List.find?_cons_of_neg _ hd
        rw [find_one_session, this] at hfind
        exact hfind
      simp only [update_one_session, if_neg hd]
      exact List.Forall₂.cons (List.prefix_refl _) (ih hfind2)

lemma forall2_messages_push (groups : List Group) (gid : String) (m : GroupMessage) :
    List.Forall₂ (fun a b => a.messages <+: b.messages) groups
      (push_group_message groups gid m) := by
  induction groups with
  | nil => simp [push_group_message]
  | cons g rest ih =>
    by_cases hg : (g.group_id == gid) = true
    · simp only [push_group_message, if_pos hg]
      exact List.Forall₂.cons (List.prefix_append _ _)
        (List.forall₂_same.mpr fun x _ => List.prefix_refl _)
    · simp only [push_group_message, if_neg hg]
      exact List.Forall₂.cons (List.prefix_refl _) ih

lemma forall2_messages_set_members (groups : List Group) (gid : String)
    (ms : List String) :
    List.Forall₂ (fun a b => a.messages <+: b.messages) groups
      (set_group_members groups gid ms) := by
  induction groups with
  | nil => simp [set_group_members]
  | cons g rest ih =>
    by_cases hg : (g.group_id == gid) = true
    · simp only [set_group_members, if_pos hg]
      exact List.Forall₂.cons (List.prefix_refl _)
        (List.forall₂_same.mpr fun x _ => List.prefix_refl _)
    · simp only [set_group_members, if_neg hg]
      exact List.Forall₂.cons (List.prefix_refl _) ih

lemma forall2_messages_trans (l1 l2 l3 : List Group)
    (h12 : List.Forall₂ (fun a b => a.messages <+: b.messages) l1 l2)
    (h23 : List.Forall₂ (fun a b => a.messages <+: b.messages) l2 l3) :
    List.Forall₂ (fun a b => a.messages <+: b.messages) l1 l3 := by
  induction h12 generalizing l3 with
  | nil =>
    cases h23
    exact List.Forall₂.nil
  | cons hab h ih =>
    cases h23 with
    | cons hbc h2 => exact List.Forall₂.cons (hab.trans hbc) (ih _ h2)

/-- Claim C7: histories are append-only — for every chat send, group
send and group join that succeeds, the message list of each stored document
before the operation is a prefix of its message list after it, so no
already-stored entry is modified. -/
theorem histories_append_only :
    (∀ (db : List ChatSession) (uid sid text : String)
        (audio : Option (Except String String)) (image : Option String)
        (keySet : Bool) (titleApi chatApi : Except String String) (now : Nat)
        (r : ChatResponse) (db2 : List ChatSession),
        ChatRoutes.send_message db uid sid text audio image keySet titleApi chatApi now
          = .ok (r, db2) →
        List.Forall₂ (fun a b => a.messages <+: b.messages) db db2)
    ∧ (∀ (sessions : List GroupChatSession) (groups : List Group)
        (gid sid uid content umid amid : String) (now : Nat)
        (chatApi : Except String String) (am : GroupMessage)
        (groups2 : List Group) (trace : List DbWrite),
        GroupChatService.send_message sessions groups gid sid uid content umid amid now
            chatApi = .ok (am, groups2, trace) →
        List.Forall₂ (fun a b => a.messages <+: b.messages) groups groups2)
    ∧ (∀ (sessions : List GroupChatSession) (groups : List Group)
        (uid sid gid : String) (g : Group) (groups2 : List Group)
        (trace : List DbWrite),
        GroupChatService.join_group sessions groups uid sid gid = .ok (g, groups2, trace) →
        List.Forall₂ (fun a b => a.messages <+: b.messages) groups groups2) := by
  refine ⟨?_, ?_, ?_⟩
  · intro db uid sid text audio image keySet titleApi chatApi now r db2 hok
    cases hfind : find_one_session db sid uid with
    | none => simp [ChatRoutes.send_message, hfind] at hok
    | some s =>
      cases haud : ChatRoutes.audio_text text audio with
      | error e => simp [ChatRoutes.send_message, hfind, haud] at hok
      | ok txt =>
        by_cases hcond : ((txt == "") && image.isNone) = true
        · simp [ChatRoutes.send_message, hfind, haud, hcond] at hok
        · cases chatApi with
          | error e => simp [ChatRoutes.send_message, hfind, haud, hcond] at hok
          | ok reply =>
            simp only [ChatRoutes.send_message, hfind, haud, hcond, if_false,
              Bool.false_eq_true] at hok
            rw [Except.ok.injEq, Prod.mk.injEq] at hok
            obtain ⟨hr, hdb⟩ := hok
            subst hdb
            exact forall2_messages_update db sid uid _ s hfind
              ⟨_, rfl⟩
  · intro sessions groups gid sid uid content umid amid now chatApi am groups2 trace hok
    by_cases hv : GroupChatService.validate_session sessions sid uid = true
    · cases hg : find_one_group groups gid with
      | none => simp [GroupChatService.send_message, hv, hg] at hok
      | some g =>
        by_cases hm : uid ∈ g.members
        · have hnc : ¬ ((!g.members.contains uid) = true) := by simp [hm]
          simp only [GroupChatService.send_message, hv, hg] at hok
          rw [if_neg hnc] at hok
          injection hok with hok2
          injection hok2 with ha hbc
          injection hbc with hb hc
          subst hb
          exact forall2_messages_trans _ _ _
            (forall2_messages_push groups gid ⟨umid, uid, content, now, false⟩)
            (forall2_messages_push _ gid _)
        · simp [GroupChatService.send_message, hv, hg, hm] at hok
    · simp [GroupChatService.send_message, hv] at hok
  · intro sessions groups uid sid gid g groups2 trace hok
    by_cases hv : GroupChatService.validate_session sessions sid uid = true
    · cases hg : find_one_group groups gid with
      | none => simp [GroupChatService.join_group, hv, hg] at hok
      | some g0 =>
        by_cases hm : uid ∈ g0.members
        · have hcm : g0.members.contains uid = true := by simpa using hm
          simp only [GroupChatService.join_group, hv, hg] at hok
          rw [if_pos hcm] at hok
          injection hok with hok2
          injection hok2 with ha hbc
          injection hbc with hb hc
          subst hb
          exact List.forall₂_same.mpr fun x _ => List.prefix_refl _
        · have hcm : ¬ (g0.members.contains uid = true) := by simpa using hm
          simp only [GroupChatService.join_group, hv, hg] at hok
          rw [if_neg hcm] at hok
          injection hok with hok2
          injection hok2 with ha hbc
          injection hbc with hb hc
          subst hb
          exact forall2_messages_set_members groups gid _
    · simp [GroupChatService.join_group, hv] at hok

/-- Witness for claim C7: a concrete successful group send. -/
theorem histories_append_only_witness :
    List.Forall₂ (fun (a b : Group) => a.messages <+: b.messages)
      [⟨"g1", "grp", "general", "u1", ["u1"], 0, []⟩]
      (push_group_message
        (push_group_message [⟨"g1", "grp", "general", "u1", ["u1"], 0, []⟩] "g1"
          ⟨"m1", "u1", "hi", 3, false⟩) "g1"
        ⟨"m2", "AI", GroupChatService.ai_reply (Except.ok "re"), 3, true⟩) :=
  histories_append_only.2.1 [⟨"s1", "u1", 0⟩]
    [⟨"g1", "grp", "general", "u1", ["u1"], 0, []⟩] "g1" "s1" "u1" "hi" "m1" "m2" 3
    (Except.ok "re") ⟨"m2", "AI", GroupChatService.ai_reply (Except.ok "re"), 3, true⟩
    (push_group_message
      (push_group_message [⟨"g1", "grp", "general", "u1", ["u1"], 0, []⟩] "g1"
        ⟨"m1", "u1", "hi", 3, false⟩) "g1"
      ⟨"m2", "AI", GroupChatService.ai_reply (Except.ok "re"), 3, true⟩)
    [DbWrite.push_message "g1" ⟨"m1", "u1", "hi", 3, false⟩,
     DbWrite.push_message "g1" ⟨"m2", "AI", GroupChatService.ai_reply (Except.ok "re"), 3, true⟩]
    (by rfl)

/-- The sequence of create-session calls, modelling the uuid.uuid4 draws
as successive values of a stream u: the call for the k-th user in the
list draws u (n + k) and inserts the new session document. -/
def run_create_sessions (u : Nat → String) :
    List String → Nat → List ChatSession → List String × List ChatSession
  | [], _, db => ([], db)
  | uid :: rest, n, db =>
      let r := ChatRoutes.create_session db uid (u n) n
      let r2 := run_create_sessions u rest (n + 1) r.2
      (r.1.session_id :: r2.1, r2.2)

lemma mem_run_create_sessions (u : Nat → String) :
    ∀ (users : List String) (n : Nat) (db : List ChatSession) (x : String),
      x ∈ (run_create_sessions u users n db).1 → ∃ j, n ≤ j ∧ x = u j
  | [], n, db, x => by simp [run_create_sessions]
  | uid :: rest, n, db, x => by
    simp only [run_create_sessions, List.mem_cons]
    rintro (rfl | hx)
    · exact ⟨n, le_refl n, rfl⟩
    · obtain ⟨j, hj, hxj⟩ := mem_run_create_sessions u rest (n + 1) _ x hx
      exact ⟨j, by omega, hxj⟩

/-- Claim C8: with a uuid stream that never repeats a draw, every
create-session call returns an identifier distinct from the one of every
other call in the sequence and from every identifier drawn before the
sequence started. -/
theorem create_session_ids_fresh (u : Nat → String) (hu : Function.Injective u)
    (users : List String) (n : Nat) (db : List ChatSession) :
    (run_create_sessions u users n db).1.Nodup
    ∧ ∀ x ∈ (run_create_sessions u users n db).1, ∀ k, k < n → x ≠ u k := by
  induction users generalizing n db with
  | nil => simp [run_create_sessions]
  | cons uid rest ih =>
    obtain ⟨hnodup, hprev⟩ := ih (n + 1) (ChatRoutes.create_session db uid (u n) n).2
    constructor
    · simp only [run_create_sessions, List.nodup_cons]
      refine ⟨?_, hnodup⟩
      intro hmem
      obtain ⟨j, hj, hxj⟩ := mem_run_create_sessions u rest (n + 1) _ _ hmem
      have := hu hxj
      omega
    · simp only [run_create_sessions, List.mem_cons]
      rintro x (rfl | hx) k hk
      · intro hcontra
        have := hu hcontra
        omega
      · exact hprev x hx k (by omega)

/-- A sample injective uuid stream for the witness. -/
def uuid_stream_sample (k : Nat) : String := ⟨List.replicate k (Char.ofNat 97)⟩

lemma uuid_stream_sample_injective : Function.Injective uuid_stream_sample := by
  intro a b h
  have hd : List.replicate a (Char.ofNat 97) = List.replicate b (Char.ofNat 97) :=
    congrArg String.data h
  have := congrArg List.length hd
  simpa using this

/-- Witness for claim C8: three concrete create-session calls. -/
theorem create_session_ids_fresh_witness :
    (run_create_sessions uuid_stream_sample ["u1", "u2", "u1"] 0 []).1.Nodup
    ∧ ∀ x ∈ (run_create_sessions uuid_stream_sample ["u1", "u2", "u1"] 0 []).1,
        ∀ k, k < 0 → x ≠ uuid_stream_sample k :=
  create_session_ids_fresh uuid_stream_sample uuid_stream_sample_injective
    ["u1", "u2", "u1"] 0 []

/-- A 41-character sample input for exercising the long-input paths. -/
def titleMsgW : String := "aaaaaaaaaaaaaaaaaaaaaaaaaaaaaaaaaaaaaaaaa"

/-- Witness for claim C10, at a 41-character input whose title-model call
fails. -/
theorem generate_title_bounds_witness :
    py_len (fallback_title titleMsgW) ≤ 50
    ∧ (py_len titleMsgW ≤ 40 → fallback_title titleMsgW = py_strip titleMsgW)
    ∧ (∀ e, (Except.error "boom" : Except String String) = Except.error e →
        40 < py_len titleMsgW →
        fallback_title titleMsgW = py_strip (py_take 40 titleMsgW) ++ "...")
    ∧ (∀ c, (Except.error "boom" : Except String String) = Except.ok c →
        40 < py_len titleMsgW →
        fallback_title titleMsgW =
          (if 50 < py_len (py_strip (py_strip_char squote (py_strip_char dquote (py_strip c)))) then
            py_take 47 (py_strip (py_strip_char squote (py_strip_char dquote (py_strip c)))) ++ "..."
           else py_strip (py_strip_char squote (py_strip_char dquote (py_strip c))))) :=
  generate_title_bounds true titleMsgW (Except.error "boom")
    (fallback_title titleMsgW) (by rfl)

end OmniAI
